import Mathlib

/-!
# View-state controller of the 3D portfolio page (`src/main.js`)

A shallow embedding of the stateful part of `main.js`: the frame cycler
(`startFrameCycle`, `stopFrameCycle` and the interval callback), the click and
pointer-move handlers, the Back handler `unlockCameraControls`, and the
per-frame camera clamp `enforceSphericalBounds`.

Conventions of the embedding.

* The three.js vector helpers (`length`, `multiplyScalar`, `divideScalar`,
  `normalize`, `setLength`) follow three.js r132, the version the page imports.
* The camera clamp is embedded twice. `enforceSphericalBoundsF64` computes as
  the page does, in IEEE 754 binary64 with round-to-nearest-even (`F64`).
  `enforceSphericalBounds` is the same program read over exact reals (`ℝ`), the
  reading under which properties of the form "the distance is exactly 4.5" are
  meant; results about it say so.
* Positions and tween goals carried in the controller state are reals: the
  handlers only copy them or state them as formulas.
* The browser's interval timers are a list of active handles together with the
  next handle `setInterval` will hand out.
* `gsap.to` requests are appended to a log, newest first; the goal in force for
  a tweened property is the newest request of the log for that property.
* Ray casting is an input: every pointer event carries the list of objects its
  ray intersects, nearest first.
-/

namespace Portfolio

/-! ## three.js `Vector3`, over exact reals -/

/-- A three.js `Vector3` with real components. -/
structure Vector3 where
  x : ℝ
  y : ℝ
  z : ℝ

namespace Vector3

/-- `Vector3.length`: `Math.sqrt(x * x + y * y + z * z)`. -/
noncomputable def length (v : Vector3) : ℝ :=
  Real.sqrt (v.x * v.x + v.y * v.y + v.z * v.z)

/-- `Vector3.multiplyScalar`. -/
def multiplyScalar (v : Vector3) (scalar : ℝ) : Vector3 :=
  { x := v.x * scalar, y := v.y * scalar, z := v.z * scalar }

/-- `Vector3.divideScalar`: `this.multiplyScalar(1 / scalar)`. -/
noncomputable def divideScalar (v : Vector3) (scalar : ℝ) : Vector3 :=
  v.multiplyScalar (1 / scalar)

/-- `Vector3.normalize`: `this.divideScalar(this.length() || 1)`; the `|| 1`
replaces a zero length by one. -/
noncomputable def normalize (v : Vector3) : Vector3 :=
  v.divideScalar (if v.length = 0 then 1 else v.length)

/-- `Vector3.setLength`: `this.normalize().multiplyScalar(length)`. -/
noncomputable def setLength (v : Vector3) (l : ℝ) : Vector3 :=
  v.normalize.multiplyScalar l

end Vector3

/-- `controls.minDistance = 0.5`. -/
noncomputable def minDistance : ℝ := 0.5

/-- `controls.maxDistance = 4.5`. -/
noncomputable def maxDistance : ℝ := 4.5

/-- `enforceSphericalBounds`, as a function of `camera.position`, with every
operation taken over exact reals. The page itself computes in doubles: that
program is `enforceSphericalBoundsF64`. -/
noncomputable def enforceSphericalBounds (position : Vector3) : Vector3 :=
  let cameraDistance := position.length
  if cameraDistance < minDistance then
    position.setLength minDistance
  else if cameraDistance > maxDistance then
    position.setLength maxDistance
  else
    position

/-! ## JavaScript numbers: IEEE 754 binary64

The arithmetic `main.js` runs on: every `*`, `+`, `/` and `Math.sqrt` returns
the exact result rounded to the nearest double, ties to the even mantissa. -/

/-- A JavaScript number: `NaN`, `±Infinity`, or the finite value
`(-1)^neg * m * 2^e`. The operations below return finite values in canonical
form: `m < 2^53`, `-1074 ≤ e ≤ 971`, and `2^52 ≤ m` unless `e = -1074` (the
subnormals and the two zeros). -/
inductive F64 where
  | nan
  | inf (neg : Bool)
  | fin (neg : Bool) (m : Nat) (e : Int)
  deriving DecidableEq, Repr

namespace F64

/-- `+0` and `-0`. -/
def zero (neg : Bool) : F64 := fin neg 0 (-1074)

/-- `⌊log₂ n⌋` for `n ≥ 1` (and `0` for `n = 0`), by halving. -/
def log2Aux : Nat → Nat → Nat
  | 0, _ => 0
  | fuel + 1, n => if n < 2 then 0 else log2Aux fuel (n / 2) + 1

/-- `⌊log₂ n⌋` for `n ≥ 1`. -/
def log2 (n : Nat) : Nat := log2Aux n n

/-- `⌊(n / d) / 2^k⌋`, and whether `(n / d) / 2^k` is an integer. -/
def scaledFloor (n d : Nat) (k : Int) : Nat × Bool :=
  let num := if k < 0 then n * 2 ^ (-k).toNat else n
  let den := if k < 0 then d else d * 2 ^ k.toNat
  (num / den, num % den == 0)

/-- `⌊log₂ (n / d)⌋` for `n, d ≥ 1`. -/
def ilog2 (n d : Nat) : Int :=
  let l : Int := (log2 n : Int) - (log2 d : Int)
  if 1 ≤ (scaledFloor n d l).1 then l else l - 1

/-- Round a positive real `x` to the nearest double, ties to even, with sign
`neg`. `l` is `⌊log₂ x⌋` and `scaled k` is `⌊x / 2^k⌋` with whether `x / 2^k` is
an integer. The exponent is `l - 52`, or `-1074` in the subnormal range; the
bit below the last mantissa bit and the exactness decide the direction; a
mantissa carried to `2^53` renormalises; an exponent above `971` overflows to
infinity. -/
def roundWith (neg : Bool) (l : Int) (scaled : Int → Nat × Bool) : F64 :=
  let e : Int := max (l - 52) (-1074)
  let t := scaled (e - 1)
  let q := t.1 / 2
  let up := t.1 % 2 == 1 && (!t.2 || q % 2 == 1)
  let m := if up then q + 1 else q
  let e' : Int := if m == 2 ^ 53 then e + 1 else e
  let m' := if m == 2 ^ 53 then 2 ^ 52 else m
  if 971 < e' then inf neg else fin neg m' e'

/-- The double nearest to `(-1)^neg * n / d`. -/
def round (neg : Bool) (n d : Nat) : F64 :=
  if n = 0 then zero neg else roundWith neg (ilog2 n d) (scaledFloor n d)

/-- The double nearest to `(-1)^neg * m * 2^e`. -/
def roundDyadic (neg : Bool) (m : Nat) (e : Int) : F64 :=
  if e < 0 then round neg m (2 ^ (-e).toNat) else round neg (m * 2 ^ e.toNat) 1

/-- The value of a nonnegative numeric literal equal to `n / d`, such as `0.5`
(`lit 1 2`), `4.5` (`lit 9 2`) or `8` (`lit 8 1`). -/
def lit (n d : Nat) : F64 := round false n d

/-- The integer `(-1)^neg * m`. -/
def signed (neg : Bool) (m : Nat) : Int := if neg then -(m : Int) else (m : Int)

/-- JavaScript `a * b`. -/
def mul : F64 → F64 → F64
  | nan, _ => nan
  | _, nan => nan
  | inf s, inf t => inf (xor s t)
  | inf s, fin t m _ => if m = 0 then nan else inf (xor s t)
  | fin s m _, inf t => if m = 0 then nan else inf (xor s t)
  | fin s m e, fin t m' e' => roundDyadic (xor s t) (m * m') (e + e')

/-- JavaScript `a + b`. An exact sum of zero is `-0` only when both operands
are negative (zeros), and `+0` otherwise. -/
def add : F64 → F64 → F64
  | nan, _ => nan
  | _, nan => nan
  | inf s, inf t => if s = t then inf s else nan
  | inf s, fin _ _ _ => inf s
  | fin _ _ _, inf t => inf t
  | fin s m e, fin t m' e' =>
    let k := min e e'
    let sum := signed s (m * 2 ^ (e - k).toNat) + signed t (m' * 2 ^ (e' - k).toNat)
    if sum = 0 then zero (s && t) else roundDyadic (decide (sum < 0)) sum.natAbs k

/-- JavaScript `a / b`. -/
def div : F64 → F64 → F64
  | nan, _ => nan
  | _, nan => nan
  | inf _, inf _ => nan
  | inf s, fin t _ _ => inf (xor s t)
  | fin s _ _, inf t => zero (xor s t)
  | fin s m e, fin t m' e' =>
    if m' = 0 then (if m = 0 then nan else inf (xor s t))
    else round (xor s t) (m * 2 ^ (e - e').toNat) (m' * 2 ^ (e' - e).toNat)

/-- Bits `i - 1` down to `0` of `⌊√n⌋`, added to `r`. -/
def isqrtAux : Nat → Nat → Nat → Nat
  | 0, r, _ => r
  | i + 1, r, n => isqrtAux i (if (r + 2 ^ i) * (r + 2 ^ i) ≤ n then r + 2 ^ i else r) n

/-- `⌊√n⌋`. -/
def isqrt (n : Nat) : Nat := isqrtAux (log2 n / 2 + 1) 0 n

/-- `⌊√(n / d) / 2^k⌋`, and whether `√(n / d) / 2^k` is an integer. -/
def scaledSqrt (n d : Nat) (k : Int) : Nat × Bool :=
  let a := scaledFloor n d (2 * k)
  let r := isqrt a.1
  (r, a.2 && r * r == a.1)

/-- `Math.sqrt(a)`, the correctly rounded square root. -/
def sqrt : F64 → F64
  | nan => nan
  | inf s => if s then nan else inf false
  | fin s m e =>
    if m = 0 then zero s
    else if s then nan
    else
      let n := if e < 0 then m else m * 2 ^ e.toNat
      let d := if e < 0 then 2 ^ (-e).toNat else 1
      roundWith false (Int.fdiv (ilog2 n d) 2) (scaledSqrt n d)

/-- JavaScript `a < b`; `a > b` is `lt b a`. False when either side is `NaN`. -/
def lt : F64 → F64 → Bool
  | nan, _ => false
  | _, nan => false
  | inf s, inf t => s && !t
  | inf s, fin _ _ _ => s
  | fin _ _ _, inf t => !t
  | fin s m e, fin t m' e' =>
    let k := min e e'
    decide (signed s (m * 2 ^ (e - k).toNat) < signed t (m' * 2 ^ (e' - k).toNat))

/-- Truthiness of a number, as `||` tests it: `NaN`, `+0` and `-0` are falsy. -/
def truthy : F64 → Bool
  | nan => false
  | inf _ => true
  | fin _ m _ => m != 0

/-- The real value of a finite double. `NaN` and the infinities have none and
are sent to `0`; it is applied only to results shown to be finite. -/
noncomputable def toReal : F64 → ℝ
  | fin neg m e => (if neg then -1 else 1) * (m : ℝ) * (2 : ℝ) ^ e
  | _ => 0

end F64

/-! ## three.js `Vector3` and the camera clamp, in doubles -/

/-- A three.js `Vector3`, its components JavaScript numbers. -/
structure Vector3F64 where
  x : F64
  y : F64
  z : F64
  deriving DecidableEq, Repr

namespace Vector3F64

/-- `Vector3.length`: `Math.sqrt(this.x * this.x + this.y * this.y + this.z * this.z)`. -/
def length (v : Vector3F64) : F64 :=
  F64.sqrt (F64.add (F64.add (F64.mul v.x v.x) (F64.mul v.y v.y)) (F64.mul v.z v.z))

/-- `Vector3.multiplyScalar`. -/
def multiplyScalar (v : Vector3F64) (scalar : F64) : Vector3F64 :=
  { x := F64.mul v.x scalar, y := F64.mul v.y scalar, z := F64.mul v.z scalar }

/-- `Vector3.divideScalar`: `this.multiplyScalar(1 / scalar)`. -/
def divideScalar (v : Vector3F64) (scalar : F64) : Vector3F64 :=
  v.multiplyScalar (F64.div (F64.lit 1 1) scalar)

/-- `Vector3.normalize`: `this.divideScalar(this.length() || 1)`. -/
def normalize (v : Vector3F64) : Vector3F64 :=
  v.divideScalar (if v.length.truthy then v.length else F64.lit 1 1)

/-- `Vector3.setLength`: `this.normalize().multiplyScalar(length)`. -/
def setLength (v : Vector3F64) (l : F64) : Vector3F64 :=
  v.normalize.multiplyScalar l

/-- The vector of the real values of the components. -/
noncomputable def toReal (v : Vector3F64) : Vector3 :=
  { x := v.x.toReal, y := v.y.toReal, z := v.z.toReal }

end Vector3F64

/-- `enforceSphericalBounds`, as a function of `camera.position`, in the
arithmetic of the page; `controls.minDistance` is `0.5` and
`controls.maxDistance` is `4.5`. -/
def enforceSphericalBoundsF64 (position : Vector3F64) : Vector3F64 :=
  let cameraDistance := position.length
  if F64.lt cameraDistance (F64.lit 1 2) then
    position.setLength (F64.lit 1 2)
  else if F64.lt (F64.lit 9 2) cameraDistance then
    position.setLength (F64.lit 9 2)
  else
    position

/-! ## Scene objects, DOM and controls -/

/-- A three.js `Object3D`, restricted to the fields `main.js` reads or writes:
`position`, `rotation.y` and `visible`. -/
structure Object3D where
  position : Vector3
  rotationY : ℝ
  visible : Bool

/-- The two values `main.js` assigns to `style.display`. -/
inductive Display where
  | none
  | block
  deriving DecidableEq, Repr

/-- The flags of `OrbitControls` that `main.js` assigns. -/
structure OrbitControls where
  enableRotate : Bool
  enableZoom : Bool
  enablePan : Bool
  deriving DecidableEq, Repr

/-- The objects `main.js` hands to `gsap.to`: `camera.position`,
`controls.target`, and the `scale` of one of the four placeholders. -/
inductive TweenTarget where
  | cameraPosition
  | controlsTarget
  | projectScale (i : Fin 4)
  deriving DecidableEq, Repr

/-- One `gsap.to(target, vars)` request: `vars.duration`, `vars.ease` (absent in
the hover requests) and the goal `vars.x`, `vars.y`, `vars.z`. -/
structure Tween where
  target : TweenTarget
  duration : ℝ
  ease : Option String
  goal : Vector3

/-- The array `frames`. -/
def frames : List String :=
  ["./assets/frame1.png", "./assets/frame2.png", "./assets/frame3.png",
   "./assets/frame4.png", "./assets/frame5.png"]

/-- The mutable module state of `main.js` that the handlers touch, together with
the browser's set of active interval timers and the log of tween requests. -/
structure State where
  /-- `frame` -/
  frame : Nat
  /-- `floatingScreenMaterial.map`, named by the path of the texture loaded -/
  floatingScreenMap : String
  /-- `floatingScreen` -/
  floatingScreen : Object3D
  /-- `projects`, the four placeholders -/
  projects : Fin 4 → Object3D
  /-- `intervalId`; `none` is `null` -/
  intervalId : Option Nat
  /-- handles of the interval timers the browser has active -/
  timers : List Nat
  /-- the handle the next `setInterval` returns -/
  nextTimerId : Nat
  /-- `learnMoreButton.style.display` -/
  learnMoreButtonDisplay : Display
  /-- `backButton.style.display` -/
  backButtonDisplay : Display
  /-- `controls` -/
  controls : OrbitControls
  /-- `INTERSECTED`; `none` stands for both `undefined` and `null`, which the
  code never tells apart -/
  INTERSECTED : Option (Fin 4)
  /-- the `gsap.to` requests issued so far, newest first -/
  tweens : List Tween

/-! ## Browser and library primitives -/

/-- `setInterval(callback, 1000)`: a fresh handle becomes active and is returned. -/
def setInterval (s : State) : Nat × State :=
  (s.nextTimerId,
    { s with timers := s.nextTimerId :: s.timers, nextTimerId := s.nextTimerId + 1 })

/-- `clearInterval(id)`: the handle is no longer active. -/
def clearInterval (id : Nat) (s : State) : State :=
  { s with timers := s.timers.filter (fun t => t ≠ id) }

/-- `gsap.to(target, vars)`: the request is recorded as the newest. -/
def gsapTo (t : Tween) (s : State) : State :=
  { s with tweens := t :: s.tweens }

/-- The goal in force for a tweened object: the newest request for it, later
requests superseding earlier ones. -/
def currentTween (s : State) (target : TweenTarget) : Option Tween :=
  s.tweens.find? (fun t => decide (t.target = target))

/-! ## Frame cycler -/

/-- The callback `startFrameCycle` passes to `setInterval`: advance `frame`
modulo `frames.length` and request that texture; `loaded` says whether the
request succeeds, and only then is the screen's texture replaced. -/
def frameCycleCallback (loaded : Bool) (s : State) : State :=
  let frame := (s.frame + 1) % frames.length
  let s := { s with frame := frame }
  if loaded then { s with floatingScreenMap := frames.getD frame "" } else s

/-- `startFrameCycle`. -/
def startFrameCycle (s : State) : State :=
  let (id, s) := setInterval s
  { s with intervalId := some id }

/-- `stopFrameCycle`. -/
def stopFrameCycle (s : State) : State :=
  match s.intervalId with
  | some id => { clearInterval id s with intervalId := none }
  | none => s

/-- One 1000ms period: every active interval timer fires its callback once. -/
def elapsePeriod (loaded : Bool) (s : State) : State :=
  s.timers.foldl (fun acc _ => frameCycleCallback loaded acc) s

/-! ## Handlers -/

/-- `handleVendingMachineClick`. -/
def handleVendingMachineClick (s : State) : State :=
  let s := { s with floatingScreen := { s.floatingScreen with visible := false } }
  let s := stopFrameCycle s
  let s := { s with projects := fun i => { s.projects i with visible := true } }
  { s with learnMoreButtonDisplay := Display.block, backButtonDisplay := Display.block }

/-- `handleProjectButtonClick(target)`. -/
noncomputable def handleProjectButtonClick (target : Object3D) (s : State) : State :=
  let s := { s with controls :=
    { s.controls with enableRotate := false, enablePan := false, enableZoom := true } }
  let s := gsapTo
    { target := TweenTarget.cameraPosition
      duration := 1.5
      ease := some "power1.inOut"
      goal :=
        { x := target.position.x + Real.sin target.rotationY * 0.8
          y := target.position.y + 0.3
          z := target.position.z + Real.cos target.rotationY * 0.8 } } s
  let s := gsapTo
    { target := TweenTarget.controlsTarget
      duration := 1.5
      ease := some "power1.inOut"
      goal := { x := target.position.x, y := target.position.y, z := target.position.z } } s
  { s with learnMoreButtonDisplay := Display.block, backButtonDisplay := Display.block }

/-- `unlockCameraControls`, the handler of the Back button. -/
noncomputable def unlockCameraControls (s : State) : State :=
  let s := { s with controls :=
    { s.controls with enableRotate := true, enableZoom := true, enablePan := false } }
  let s := gsapTo
    { target := TweenTarget.cameraPosition
      duration := 1.5
      ease := some "power1.inOut"
      goal := { x := 10, y := 10, z := 10 } } s
  let s := gsapTo
    { target := TweenTarget.controlsTarget
      duration := 1.5
      ease := some "power1.inOut"
      goal := { x := 0, y := 0, z := 0 } } s
  let s := { s with learnMoreButtonDisplay := Display.none, backButtonDisplay := Display.none }
  let s := { s with projects := fun i => { s.projects i with visible := false } }
  let s := { s with floatingScreen := { s.floatingScreen with visible := true } }
  startFrameCycle s

/-- What the ray of a click intersects: the number of intersections
`raycaster.intersectObject(floatingScreen)` returns, and the placeholders
`raycaster.intersectObjects(projects)` returns, nearest first. -/
structure ClickRay where
  intersectsFloatingScreen : Nat
  intersectsProjects : List (Fin 4)

/-- `onClick`. -/
noncomputable def onClick (ray : ClickRay) (s : State) : State :=
  if ray.intersectsFloatingScreen > 0 then
    handleVendingMachineClick s
  else
    match ray.intersectsProjects with
    | intersectedObject :: _ => handleProjectButtonClick (s.projects intersectedObject) s
    | [] => s

/-- `onMouseMove`; `intersects` is `raycaster.intersectObjects(projects)`,
nearest first. -/
noncomputable def onMouseMove (intersects : List (Fin 4)) (s : State) : State :=
  match intersects with
  | object :: _ =>
    if s.INTERSECTED ≠ some object then
      let s :=
        match s.INTERSECTED with
        | some previous =>
          gsapTo
            { target := TweenTarget.projectScale previous
              duration := 0.3
              ease := none
              goal := { x := 1, y := 1, z := 1 } } s
        | none => s
      let s := { s with INTERSECTED := some object }
      gsapTo
        { target := TweenTarget.projectScale object
          duration := 0.3
          ease := none
          goal := { x := 1.1, y := 1.1, z := 1.1 } } s
    else s
  | [] =>
    let s :=
      match s.INTERSECTED with
      | some previous =>
        gsapTo
          { target := TweenTarget.projectScale previous
            duration := 0.3
            ease := none
            goal := { x := 1, y := 1, z := 1 } } s
      | none => s
    { s with INTERSECTED := none }

/-! ## The state after the module has loaded -/

/-- `floatingScreenPosition`, `(-1.15, 0.9, 1.64)`. -/
noncomputable def floatingScreenPosition : Vector3 :=
  { x := -1.15, y := 0.9, z := 1.64 }

/-- `offsetX = 0.2`. -/
noncomputable def offsetX : ℝ := 0.2

/-- `offsetY = 0.2`. -/
noncomputable def offsetY : ℝ := 0.2

/-- `createProjectPlaceholder(texturePath, x, y, z, ...)`: a box at `(x, y, z)`,
unrotated and `visible = false`. -/
def createProjectPlaceholder (x y z : ℝ) : Object3D :=
  { position := { x := x, y := y, z := z }, rotationY := 0, visible := false }

/-- `project1` .. `project4`, in the order of the array `projects`. -/
noncomputable def initialProjects : Fin 4 → Object3D
  | 0 => createProjectPlaceholder (floatingScreenPosition.x - offsetX)
      (floatingScreenPosition.y + offsetY) (floatingScreenPosition.z + 0.01)
  | 1 => createProjectPlaceholder (floatingScreenPosition.x + offsetX)
      (floatingScreenPosition.y + offsetY) (floatingScreenPosition.z + 0.01)
  | 2 => createProjectPlaceholder (floatingScreenPosition.x - offsetX)
      (floatingScreenPosition.y - offsetY) (floatingScreenPosition.z + 0.01)
  | 3 => createProjectPlaceholder (floatingScreenPosition.x + offsetX)
      (floatingScreenPosition.y - offsetY) (floatingScreenPosition.z + 0.01)

/-- The module state as the top-level declarations leave it, before the
top-level call of `startFrameCycle`: no timer, `intervalId = null`, the screen
shown with `frames[0]`, the placeholders and both buttons hidden, and the
controls as configured (`enableRotate` keeps the `OrbitControls` default). -/
noncomputable def declaredState : State :=
  { frame := 0
    floatingScreenMap := frames.getD 0 ""
    floatingScreen := { position := floatingScreenPosition, rotationY := 0, visible := true }
    projects := initialProjects
    intervalId := none
    timers := []
    nextTimerId := 1
    learnMoreButtonDisplay := Display.none
    backButtonDisplay := Display.none
    controls := { enableRotate := true, enableZoom := true, enablePan := false }
    INTERSECTED := none
    tweens := [] }

/-- The state once the module has run: `declaredState` followed by the
top-level `startFrameCycle()`. -/
noncomputable def initialState : State :=
  startFrameCycle declaredState

/-! ## Notions used to state the properties -/

/-- The goal of the newest scale request for placeholder `i`, if any. -/
def scaleGoal (s : State) (i : Fin 4) : Option Vector3 :=
  (currentTween s (TweenTarget.projectScale i)).map (fun t => t.goal)

/-- The state after a sequence of pointer moves, each given by the placeholders
its ray intersects, nearest first. -/
noncomputable def afterMoves (moves : List (List (Fin 4))) (s : State) : State :=
  moves.foldl (fun acc intersects => onMouseMove intersects acc) s

/-- Hover invariant relative to a set `hovered` of placeholders hovered so far:
the hovered placeholder is in the set and its scale goal is 1.1; every other
placeholder of the set has scale goal 1. -/
def HoverInv (hovered : Fin 4 → Prop) (s : State) : Prop :=
  (∀ i, s.INTERSECTED = some i → hovered i ∧ scaleGoal s i = some ⟨1.1, 1.1, 1.1⟩) ∧
  (∀ i, hovered i → s.INTERSECTED ≠ some i → scaleGoal s i = some ⟨1, 1, 1⟩)

/-! ## Lemmas on vectors -/

theorem Vector3.length_nonneg (v : Vector3) : 0 ≤ v.length :=
  Real.sqrt_nonneg _

theorem Vector3.length_multiplyScalar (v : Vector3) (c : ℝ) :
    (v.multiplyScalar c).length = |c| * v.length := by
  unfold Vector3.length Vector3.multiplyScalar
  have h : v.x * c * (v.x * c) + v.y * c * (v.y * c) + v.z * c * (v.z * c)
      = c ^ 2 * (v.x * v.x + v.y * v.y + v.z * v.z) := by ring
  simp only [h]
  rw [Real.sqrt_mul (sq_nonneg c), Real.sqrt_sq_eq_abs]

theorem Vector3.length_eq_zero_iff (v : Vector3) :
    v.length = 0 ↔ v = ⟨0, 0, 0⟩ := by
  unfold Vector3.length
  constructor
  · intro h
    have h0 : v.x * v.x + v.y * v.y + v.z * v.z = 0 := by
      have hn : 0 ≤ v.x * v.x + v.y * v.y + v.z * v.z := by
        nlinarith [mul_self_nonneg v.x, mul_self_nonneg v.y, mul_self_nonneg v.z]
      exact (Real.sqrt_eq_zero hn).1 h
    have hx : v.x = 0 := by nlinarith [mul_self_nonneg v.x, mul_self_nonneg v.y, mul_self_nonneg v.z]
    have hy : v.y = 0 := by nlinarith [mul_self_nonneg v.x, mul_self_nonneg v.y, mul_self_nonneg v.z]
    have hz : v.z = 0 := by nlinarith [mul_self_nonneg v.x, mul_self_nonneg v.y, mul_self_nonneg v.z]
    cases v
    simp_all
  · intro h
    subst h
    simp

theorem Vector3.setLength_eq (v : Vector3) (l : ℝ) (h : v.length ≠ 0) :
    v.setLength l = v.multiplyScalar (l / v.length) := by
  unfold Vector3.setLength Vector3.normalize Vector3.divideScalar Vector3.multiplyScalar
  simp only [if_neg h]
  congr 1 <;> field_simp

theorem Vector3.length_setLength (v : Vector3) (l : ℝ) (h : v.length ≠ 0) (hl : 0 ≤ l) :
    (v.setLength l).length = l := by
  rw [Vector3.setLength_eq v l h, Vector3.length_multiplyScalar]
  have hp : 0 < v.length := lt_of_le_of_ne v.length_nonneg (Ne.symm h)
  rw [abs_of_nonneg (div_nonneg hl hp.le)]
  field_simp

theorem Vector3.setLength_zero (l : ℝ) :
    (⟨0, 0, 0⟩ : Vector3).setLength l = ⟨0, 0, 0⟩ := by
  simp [Vector3.setLength, Vector3.normalize, Vector3.divideScalar, Vector3.multiplyScalar]

theorem enforceSphericalBounds_of_lt (p : Vector3) (h : p.length < 0.5) :
    enforceSphericalBounds p = p.setLength 0.5 := by
  simp [enforceSphericalBounds, minDistance, h]

theorem enforceSphericalBounds_of_gt (p : Vector3) (h : 4.5 < p.length) :
    enforceSphericalBounds p = p.setLength 4.5 := by
  have h' : ¬ p.length < 0.5 := by
    intro hlt
    norm_num at hlt h
    linarith
  simp [enforceSphericalBounds, minDistance, maxDistance, h, h']

theorem enforceSphericalBounds_of_mem (p : Vector3) (h1 : 0.5 ≤ p.length)
    (h2 : p.length ≤ 4.5) : enforceSphericalBounds p = p := by
  simp [enforceSphericalBounds, minDistance, maxDistance, not_lt.2 h1, not_lt.2 h2]

theorem Vector3.multiplyScalar_one (p : Vector3) : p.multiplyScalar 1 = p := by
  cases p
  simp [Vector3.multiplyScalar]

theorem length_home : 4.5 < (⟨10, 10, 10⟩ : Vector3).length := by
  unfold Vector3.length
  apply Real.lt_sqrt_of_sq_lt
  norm_num

/-! ## Camera clamp: claims C3 and C10 -/

/-- C3, as stated, fails at the origin: `enforceSphericalBounds` leaves a camera
at the origin at the origin, whose distance 0 is outside `[0.5, 4.5]`. -/
theorem enforceSphericalBounds_origin_not_clamped :
    enforceSphericalBounds ⟨0, 0, 0⟩ = ⟨0, 0, 0⟩ ∧
      ¬ (0.5 ≤ (enforceSphericalBounds ⟨0, 0, 0⟩).length ∧
          (enforceSphericalBounds ⟨0, 0, 0⟩).length ≤ 4.5) := by
  have h0 : (⟨0, 0, 0⟩ : Vector3).length = 0 := (Vector3.length_eq_zero_iff _).2 rfl
  have he : enforceSphericalBounds ⟨0, 0, 0⟩ = ⟨0, 0, 0⟩ := by
    rw [enforceSphericalBounds_of_lt _ (by rw [h0]; norm_num), Vector3.setLength_zero]
  refine ⟨he, ?_⟩
  rw [he, h0]
  norm_num

/-- C3, amended: for every camera position other than the origin, after
`enforceSphericalBounds` the distance of the camera from the origin lies in
`[controls.minDistance, controls.maxDistance] = [0.5, 4.5]`. -/
theorem enforceSphericalBounds_clamps (p : Vector3) (hp : p ≠ ⟨0, 0, 0⟩) :
    minDistance = 0.5 ∧ maxDistance = 4.5 ∧
      minDistance ≤ (enforceSphericalBounds p).length ∧
      (enforceSphericalBounds p).length ≤ maxDistance := by
  have hne : p.length ≠ 0 := fun h => hp ((Vector3.length_eq_zero_iff p).1 h)
  refine ⟨rfl, rfl, ?_⟩
  unfold minDistance maxDistance
  by_cases h1 : p.length < 0.5
  · rw [enforceSphericalBounds_of_lt p h1, Vector3.length_setLength p _ hne (by norm_num)]
    norm_num
  · by_cases h2 : 4.5 < p.length
    · rw [enforceSphericalBounds_of_gt p h2, Vector3.length_setLength p _ hne (by norm_num)]
      norm_num
    · rw [enforceSphericalBounds_of_mem p (not_lt.1 h1) (not_lt.1 h2)]
      exact ⟨not_lt.1 h1, not_lt.1 h2⟩

/-- Witness of `enforceSphericalBounds_clamps` at the home pose `(10, 10, 10)`. -/
theorem enforceSphericalBounds_clamps_witness :
    (⟨10, 10, 10⟩ : Vector3) ≠ ⟨0, 0, 0⟩ ∧
      (minDistance = 0.5 ∧ maxDistance = 4.5 ∧
        minDistance ≤ (enforceSphericalBounds ⟨10, 10, 10⟩).length ∧
        (enforceSphericalBounds ⟨10, 10, 10⟩).length ≤ maxDistance) :=
  ⟨by simp, enforceSphericalBounds_clamps ⟨10, 10, 10⟩ (by simp)⟩

/-- C10, as stated, fails in the page's double arithmetic. At `(8, 8, 8)`, whose
computed distance exceeds `4.5`, the clamped position is
`(2.5980762113533165, 2.5980762113533165, 2.5980762113533165)`: its computed
length is `4.500000000000001`, not `4.5`, and its real length is not `4.5`
either. At `(4, 4, 7)` the clamped position is `(2, 2, 3.4999999999999996)`,
which is no real multiple of `(4, 4, 7)`. -/
theorem enforceSphericalBoundsF64_not_exact :
    F64.lt (F64.lit 9 2) (Vector3F64.length ⟨F64.lit 8 1, F64.lit 8 1, F64.lit 8 1⟩) = true ∧
      enforceSphericalBoundsF64 ⟨F64.lit 8 1, F64.lit 8 1, F64.lit 8 1⟩
        = ⟨F64.fin false 5850347528665473 (-51), F64.fin false 5850347528665473 (-51),
            F64.fin false 5850347528665473 (-51)⟩ ∧
      (enforceSphericalBoundsF64 ⟨F64.lit 8 1, F64.lit 8 1, F64.lit 8 1⟩).length
        = F64.fin false 5066549580791809 (-50) ∧
      F64.lit 9 2 = F64.fin false 5066549580791808 (-50) ∧
      (enforceSphericalBoundsF64 ⟨F64.lit 8 1, F64.lit 8 1, F64.lit 8 1⟩).toReal.length ≠ 4.5 ∧
      enforceSphericalBoundsF64 ⟨F64.lit 4 1, F64.lit 4 1, F64.lit 7 1⟩
        = ⟨F64.lit 2 1, F64.lit 2 1, F64.fin false 7881299347898367 (-51)⟩ ∧
      ¬ ∃ c : ℝ, (enforceSphericalBoundsF64 ⟨F64.lit 4 1, F64.lit 4 1, F64.lit 7 1⟩).toReal
          = (Vector3F64.toReal ⟨F64.lit 4 1, F64.lit 4 1, F64.lit 7 1⟩).multiplyScalar c := by
  have h8 : enforceSphericalBoundsF64 ⟨F64.lit 8 1, F64.lit 8 1, F64.lit 8 1⟩
      = ⟨F64.fin false 5850347528665473 (-51), F64.fin false 5850347528665473 (-51),
          F64.fin false 5850347528665473 (-51)⟩ := by decide!
  have h447 : enforceSphericalBoundsF64 ⟨F64.lit 4 1, F64.lit 4 1, F64.lit 7 1⟩
      = ⟨F64.lit 2 1, F64.lit 2 1, F64.fin false 7881299347898367 (-51)⟩ := by decide!
  have l2 : F64.lit 2 1 = F64.fin false 4503599627370496 (-51) := by decide!
  have l4 : F64.lit 4 1 = F64.fin false 4503599627370496 (-50) := by decide!
  have l7 : F64.lit 7 1 = F64.fin false 7881299347898368 (-50) := by decide!
  refine ⟨by decide!, h8, by decide!, by decide!, ?_, h447, ?_⟩
  · rw [h8]
    intro h
    have hsq : (Vector3F64.toReal ⟨F64.fin false 5850347528665473 (-51),
        F64.fin false 5850347528665473 (-51), F64.fin false 5850347528665473 (-51)⟩).length ^ 2
        = 4.5 ^ 2 := by rw [h]
    unfold Vector3.length at hsq
    rw [Real.sq_sqrt (add_nonneg (add_nonneg (mul_self_nonneg _) (mul_self_nonneg _))
      (mul_self_nonneg _))] at hsq
    norm_num [Vector3F64.toReal, F64.toReal] at hsq
  · rw [h447, l2, l4, l7]
    rintro ⟨c, hc⟩
    have hx := congrArg Vector3.x hc
    have hz := congrArg Vector3.z hc
    norm_num [Vector3F64.toReal, F64.toReal, Vector3.multiplyScalar] at hx hz
    linarith

/-- C10, amended: with arithmetic taken over exact reals, `enforceSphericalBounds`
only rescales along the current direction. For every camera position `p` the
result is `c * p` for some `c ≥ 0`, and `c = 1` when `0.5 ≤ |p| ≤ 4.5`, where the
position is left unchanged; the resulting length is exactly `0.5` when
`0 < |p| < 0.5` and exactly `4.5` when `|p| > 4.5`; the home pose `(10, 10, 10)`,
the camera goal that Back requests, is pulled in to distance `4.5` along
`(1, 1, 1)`. In the page's double arithmetic the position is likewise left
exactly unchanged whenever the computed distance is neither below `0.5` nor
above `4.5`. -/
theorem enforceSphericalBounds_rescales (p : Vector3) :
    (∃ c : ℝ, 0 ≤ c ∧ enforceSphericalBounds p = p.multiplyScalar c ∧
        (0.5 ≤ p.length → p.length ≤ 4.5 → c = 1)) ∧
      (0.5 ≤ p.length → p.length ≤ 4.5 → enforceSphericalBounds p = p) ∧
      (0 < p.length → p.length < 0.5 → (enforceSphericalBounds p).length = 0.5) ∧
      (4.5 < p.length → (enforceSphericalBounds p).length = 4.5) ∧
      (∀ s : State,
        (currentTween (unlockCameraControls s) TweenTarget.cameraPosition).map (fun t => t.goal)
          = some ⟨10, 10, 10⟩) ∧
      (enforceSphericalBounds ⟨10, 10, 10⟩).length = 4.5 ∧
      (∃ c : ℝ, 0 < c ∧
        enforceSphericalBounds ⟨10, 10, 10⟩ = (⟨1, 1, 1⟩ : Vector3).multiplyScalar c) ∧
      (∀ q : Vector3F64, F64.lt q.length (F64.lit 1 2) = false →
        F64.lt (F64.lit 9 2) q.length = false → enforceSphericalBoundsF64 q = q) := by
  refine ⟨?_, ?_, ?_, ?_, ?_, ?_, ?_, ?_⟩
  · by_cases h1 : p.length < 0.5
    · by_cases h0 : p.length = 0
      · refine ⟨1, by norm_num, ?_, fun h => ?_⟩
        · have hp := (Vector3.length_eq_zero_iff p).1 h0
          rw [enforceSphericalBounds_of_lt p h1, Vector3.multiplyScalar_one, hp,
            Vector3.setLength_zero]
        · exact absurd h1 (not_lt.2 h)
      · refine ⟨0.5 / p.length, ?_, ?_, fun h => absurd h1 (not_lt.2 h)⟩
        · exact div_nonneg (by norm_num) p.length_nonneg
        · rw [enforceSphericalBounds_of_lt p h1, Vector3.setLength_eq p _ h0]
    · by_cases h2 : 4.5 < p.length
      · have h0 : p.length ≠ 0 := by
          intro h
          rw [h] at h2
          norm_num at h2
        refine ⟨4.5 / p.length, ?_, ?_, fun _ h => absurd h2 (not_lt.2 h)⟩
        · exact div_nonneg (by norm_num) p.length_nonneg
        · rw [enforceSphericalBounds_of_gt p h2, Vector3.setLength_eq p _ h0]
      · refine ⟨1, by norm_num, ?_, fun _ _ => rfl⟩
        rw [enforceSphericalBounds_of_mem p (not_lt.1 h1) (not_lt.1 h2),
          Vector3.multiplyScalar_one]
  · exact enforceSphericalBounds_of_mem p
  · intro h0 h1
    rw [enforceSphericalBounds_of_lt p h1,
      Vector3.length_setLength p _ (ne_of_gt h0) (by norm_num)]
  · intro h2
    have h0 : p.length ≠ 0 := by
      intro h
      rw [h] at h2
      norm_num at h2
    rw [enforceSphericalBounds_of_gt p h2, Vector3.length_setLength p _ h0 (by norm_num)]
  · intro s
    simp [unlockCameraControls, startFrameCycle, setInterval, gsapTo, currentTween, List.find?]
  · have h0 : (⟨10, 10, 10⟩ : Vector3).length ≠ 0 := by
      intro h
      have := length_home
      rw [h] at this
      norm_num at this
    rw [enforceSphericalBounds_of_gt _ length_home,
      Vector3.length_setLength _ _ h0 (by norm_num)]
  · have hpos : 0 < (⟨10, 10, 10⟩ : Vector3).length :=
      lt_trans (by norm_num) length_home
    refine ⟨10 * (4.5 / (⟨10, 10, 10⟩ : Vector3).length), by positivity, ?_⟩
    rw [enforceSphericalBounds_of_gt _ length_home, Vector3.setLength_eq _ _ (ne_of_gt hpos)]
    simp [Vector3.multiplyScalar]
  · intro q h1 h2
    simp [enforceSphericalBoundsF64, h1, h2]

/-- Witness of `enforceSphericalBounds_rescales` at `(0, 0, 6)`, of length 6. -/
theorem enforceSphericalBounds_rescales_witness :
    (enforceSphericalBounds ⟨0, 0, 6⟩).length = 4.5 :=
  (enforceSphericalBounds_rescales ⟨0, 0, 6⟩).2.2.2.1 (by
    unfold Vector3.length
    apply Real.lt_sqrt_of_sq_lt
    norm_num)

/-! ## Frame cycler: claims C5 and C9 -/

theorem frameCycleCallback_frame (loaded : Bool) (s : State) :
    (frameCycleCallback loaded s).frame = (s.frame + 1) % 5 := by
  cases loaded <;> simp [frameCycleCallback, frames]

theorem frame_foldl_callback (outcomes : List Bool) :
    ∀ s : State,
      (outcomes.foldl (fun acc loaded => frameCycleCallback loaded acc) s).frame
        = (s.frame + outcomes.length) % 5 ∨
      (outcomes = [] ∧
        (outcomes.foldl (fun acc loaded => frameCycleCallback loaded acc) s).frame = s.frame) := by
  induction outcomes with
  | nil => intro s; exact Or.inr ⟨rfl, rfl⟩
  | cons o os ih =>
    intro s
    left
    rw [List.foldl_cons]
    rcases ih (frameCycleCallback o s) with h | ⟨h1, h2⟩
    · rw [h, frameCycleCallback_frame, List.length_cons]
      omega
    · subst h1
      rw [h2, frameCycleCallback_frame]
      simp

/-- C5: starting from frame index 0 with the 5-element `frames` array, after
`N` firings of the frame-cycle timer callback (whatever the outcome of each
texture request) the frame index equals `N mod 5`; it is a valid index into
`frames`, and a firing at index 4 wraps to 0. -/
theorem frame_after_firings (outcomes : List Bool) (s : State) (h0 : s.frame = 0) :
    frames.length = 5 ∧
      (outcomes.foldl (fun acc loaded => frameCycleCallback loaded acc) s).frame
        = outcomes.length % 5 ∧
      (outcomes.foldl (fun acc loaded => frameCycleCallback loaded acc) s).frame
        < frames.length ∧
      (∀ (loaded : Bool) (t : State), t.frame = 4 → (frameCycleCallback loaded t).frame = 0) := by
  have hfold : (outcomes.foldl (fun acc loaded => frameCycleCallback loaded acc) s).frame
      = outcomes.length % 5 := by
    rcases frame_foldl_callback outcomes s with h | ⟨h1, h2⟩
    · rw [h, h0, Nat.zero_add]
    · subst h1
      rw [h2, h0]
      rfl
  refine ⟨rfl, hfold, ?_, ?_⟩
  · rw [hfold]
    exact Nat.mod_lt _ (by decide)
  · intro loaded t ht
    rw [frameCycleCallback_frame, ht]

/-- Witness of `frame_after_firings`: seven firings from the initial state, the
third texture request failing, leave the frame index at `7 mod 5 = 2`. -/
theorem frame_after_firings_witness :
    initialState.frame = 0 ∧
      ([true, true, false, true, true, true, true].foldl
        (fun acc loaded => frameCycleCallback loaded acc) initialState).frame = 2 :=
  ⟨rfl, (frame_after_firings [true, true, false, true, true, true, true]
    initialState rfl).2.1⟩

/-- C9: `stopFrameCycle` cancels the recorded timer (and only that one) and
leaves `intervalId` null; with `intervalId` null it changes nothing; it is
idempotent and never alters the frame index, the screen texture, a visibility
flag or a button. -/
theorem stopFrameCycle_spec (s : State) :
    (stopFrameCycle s).intervalId = none ∧
      (∀ id, s.intervalId = some id →
        id ∉ (stopFrameCycle s).timers ∧
        ∀ t, t ∈ (stopFrameCycle s).timers ↔ t ∈ s.timers ∧ t ≠ id) ∧
      (s.intervalId = none → stopFrameCycle s = s) ∧
      stopFrameCycle (stopFrameCycle s) = stopFrameCycle s ∧
      (stopFrameCycle s).frame = s.frame ∧
      (stopFrameCycle s).floatingScreenMap = s.floatingScreenMap ∧
      (stopFrameCycle s).floatingScreen = s.floatingScreen ∧
      (stopFrameCycle s).projects = s.projects ∧
      (stopFrameCycle s).learnMoreButtonDisplay = s.learnMoreButtonDisplay ∧
      (stopFrameCycle s).backButtonDisplay = s.backButtonDisplay := by
  cases hid : s.intervalId with
  | none => simp [stopFrameCycle, hid]
  | some id => simp [stopFrameCycle, clearInterval, hid]

/-- Witness of `stopFrameCycle_spec` at the initial state, whose recorded timer
has handle 1: that handle is no longer active and `intervalId` is null. -/
theorem stopFrameCycle_spec_witness :
    initialState.intervalId = some 1 ∧ 1 ∉ (stopFrameCycle initialState).timers ∧
      (stopFrameCycle initialState).intervalId = none :=
  ⟨rfl, ((stopFrameCycle_spec initialState).2.1 1 rfl).1, (stopFrameCycle_spec initialState).1⟩

/-! ## Vending click and Back: claim C4 -/

theorem handleVendingMachineClick_timers (s : State)
    (h : ∀ t ∈ s.timers, s.intervalId = some t) :
    (handleVendingMachineClick s).timers = [] ∧
      (handleVendingMachineClick s).intervalId = none := by
  cases hid : s.intervalId with
  | none =>
    have hnil : s.timers = [] := by
      apply List.eq_nil_iff_forall_not_mem.2
      intro t ht
      have := h t ht
      rw [hid] at this
      exact Option.noConfusion this
    simp [handleVendingMachineClick, stopFrameCycle, hid, hnil]
  | some id =>
    have hall : ∀ t ∈ s.timers, t = id := by
      intro t ht
      have := h t ht
      rw [hid] at this
      exact (Option.some.inj this).symm
    simp only [handleVendingMachineClick, stopFrameCycle, hid, clearInterval, and_true]
    apply List.eq_nil_iff_forall_not_mem.2
    intro t ht
    rw [List.mem_filter] at ht
    have := hall t ht.1
    simp [this] at ht

theorem iterate_handleVendingMachineClick (n : Nat) :
    ((handleVendingMachineClick^[n + 1]) initialState).timers = [] ∧
      ((handleVendingMachineClick^[n + 1]) initialState).intervalId = none ∧
      ((handleVendingMachineClick^[n + 1]) initialState).backButtonDisplay = Display.block := by
  have hinv : ∀ k, ∀ t ∈ ((handleVendingMachineClick^[k]) initialState).timers,
      ((handleVendingMachineClick^[k]) initialState).intervalId = some t := by
    intro k
    induction k with
    | zero =>
      intro t ht
      simp [initialState, startFrameCycle, setInterval, declaredState] at ht ⊢
      exact ht.symm
    | succ k ih =>
      intro t ht
      rw [Function.iterate_succ_apply'] at ht
      rw [(handleVendingMachineClick_timers _ ih).1] at ht
      exact absurd ht (List.not_mem_nil t)
  rw [Function.iterate_succ_apply']
  have h := handleVendingMachineClick_timers _ (hinv n)
  exact ⟨h.1, h.2, rfl⟩

/-- C4: for every `n ≥ 1`, `n` clicks on the vending screen from the initial state
show the Back button, and one Back action then yields the Idle state: the vending
screen visible, all four placeholders hidden, both buttons hidden, rotation
enabled, and exactly one frame-cycling timer active, the one `intervalId`
records. -/
theorem vending_clicks_then_back_idle (n : Nat) (hn : 1 ≤ n) :
    ((handleVendingMachineClick^[n]) initialState).backButtonDisplay = Display.block ∧
      (unlockCameraControls ((handleVendingMachineClick^[n]) initialState)).floatingScreen.visible
        = true ∧
      (∀ i : Fin 4,
        ((unlockCameraControls ((handleVendingMachineClick^[n]) initialState)).projects i).visible
          = false) ∧
      (unlockCameraControls ((handleVendingMachineClick^[n]) initialState)).learnMoreButtonDisplay
        = Display.none ∧
      (unlockCameraControls ((handleVendingMachineClick^[n]) initialState)).backButtonDisplay
        = Display.none ∧
      (unlockCameraControls ((handleVendingMachineClick^[n]) initialState)).controls.enableRotate
        = true ∧
      (∃ id,
        (unlockCameraControls ((handleVendingMachineClick^[n]) initialState)).timers = [id] ∧
        (unlockCameraControls ((handleVendingMachineClick^[n]) initialState)).intervalId
          = some id) := by
  obtain ⟨k, rfl⟩ : ∃ k, n = k + 1 := ⟨n - 1, by omega⟩
  obtain ⟨ht, _, hb⟩ := iterate_handleVendingMachineClick k
  refine ⟨hb, rfl, fun _ => rfl, rfl, rfl, rfl, ?_⟩
  refine ⟨((handleVendingMachineClick^[k + 1]) initialState).nextTimerId, ?_, rfl⟩
  have hcons : (unlockCameraControls ((handleVendingMachineClick^[k + 1]) initialState)).timers
      = ((handleVendingMachineClick^[k + 1]) initialState).nextTimerId ::
        ((handleVendingMachineClick^[k + 1]) initialState).timers := rfl
  rw [hcons, ht]

/-- Witness of `vending_clicks_then_back_idle` at three clicks. -/
theorem vending_clicks_then_back_idle_witness :
    ∃ id,
      (unlockCameraControls ((handleVendingMachineClick^[3]) initialState)).timers = [id] ∧
      (unlockCameraControls ((handleVendingMachineClick^[3]) initialState)).intervalId
        = some id :=
  (vending_clicks_then_back_idle 3 (by decide)).2.2.2.2.2.2

/-! ## Project click: claim C7 -/

/-- C7: for every placeholder `t` and prior state, `handleProjectButtonClick t`
disables rotation, enables zoom, disables pan, displays both buttons, and issues
exactly two requests of duration 1.5 and ease `power1.inOut`, with goals
`(t.x + 0.8 sin t.rotation.y, t.y + 0.3, t.z + 0.8 cos t.rotation.y)` for the
camera position and `t.position` for the look-at target; so clicking `a` and
then `b` leaves the same control flags, buttons and goals in force as clicking
`b` alone; placeholder and screen visibility and the frame cycler are untouched. -/
theorem handleProjectButtonClick_spec (t : Object3D) (s : State) :
    (handleProjectButtonClick t s).controls
        = { enableRotate := false, enableZoom := true, enablePan := false } ∧
      (handleProjectButtonClick t s).learnMoreButtonDisplay = Display.block ∧
      (handleProjectButtonClick t s).backButtonDisplay = Display.block ∧
      (handleProjectButtonClick t s).tweens =
        { target := TweenTarget.controlsTarget, duration := 1.5, ease := some "power1.inOut",
          goal := t.position } ::
        { target := TweenTarget.cameraPosition, duration := 1.5, ease := some "power1.inOut",
          goal := ⟨t.position.x + 0.8 * Real.sin t.rotationY, t.position.y + 0.3,
            t.position.z + 0.8 * Real.cos t.rotationY⟩ } :: s.tweens ∧
      (∀ a : Object3D,
        (handleProjectButtonClick t (handleProjectButtonClick a s)).controls
            = (handleProjectButtonClick t s).controls ∧
          (handleProjectButtonClick t (handleProjectButtonClick a s)).learnMoreButtonDisplay
            = (handleProjectButtonClick t s).learnMoreButtonDisplay ∧
          (handleProjectButtonClick t (handleProjectButtonClick a s)).backButtonDisplay
            = (handleProjectButtonClick t s).backButtonDisplay ∧
          currentTween (handleProjectButtonClick t (handleProjectButtonClick a s))
              TweenTarget.cameraPosition
            = currentTween (handleProjectButtonClick t s) TweenTarget.cameraPosition ∧
          currentTween (handleProjectButtonClick t (handleProjectButtonClick a s))
              TweenTarget.controlsTarget
            = currentTween (handleProjectButtonClick t s) TweenTarget.controlsTarget) ∧
      (handleProjectButtonClick t s).projects = s.projects ∧
      (handleProjectButtonClick t s).floatingScreen = s.floatingScreen ∧
      (handleProjectButtonClick t s).frame = s.frame ∧
      (handleProjectButtonClick t s).floatingScreenMap = s.floatingScreenMap ∧
      (handleProjectButtonClick t s).intervalId = s.intervalId ∧
      (handleProjectButtonClick t s).timers = s.timers ∧
      (handleProjectButtonClick t s).nextTimerId = s.nextTimerId := by
  refine ⟨rfl, rfl, rfl, ?_, fun a => ⟨rfl, rfl, rfl, ?_, ?_⟩, rfl, rfl, rfl, rfl, rfl, rfl, rfl⟩
  · simp [handleProjectButtonClick, gsapTo, mul_comm]
  · simp [handleProjectButtonClick, gsapTo, currentTween, List.find?]
  · simp [handleProjectButtonClick, gsapTo, currentTween, List.find?]

/-! ## Hover: claim C8 -/

theorem onMouseMove_INTERSECTED (m : List (Fin 4)) (s : State) :
    (onMouseMove m s).INTERSECTED = m.head? := by
  cases m with
  | nil => cases h : s.INTERSECTED <;> simp [onMouseMove, h, gsapTo]
  | cons o rest =>
    cases h : s.INTERSECTED with
    | none => simp [onMouseMove, h, gsapTo]
    | some p =>
      by_cases hp : p = o
      · simp [onMouseMove, h, hp]
      · simp [onMouseMove, h, hp, gsapTo]

theorem onMouseMove_same (o : Fin 4) (rest : List (Fin 4)) (s : State)
    (h : s.INTERSECTED = some o) : onMouseMove (o :: rest) s = s := by
  simp [onMouseMove, h]

theorem afterMoves_concat (moves : List (List (Fin 4))) (m : List (Fin 4)) (s : State) :
    afterMoves (moves ++ [m]) s = onMouseMove m (afterMoves moves s) := by
  simp [afterMoves, List.foldl_append]

theorem afterMoves_INTERSECTED (moves : List (List (Fin 4))) (s : State) :
    (afterMoves moves s).INTERSECTED =
      match moves.getLast? with
      | some m => m.head?
      | none => s.INTERSECTED := by
  rcases List.eq_nil_or_concat moves with h | ⟨ms, m, h⟩
  · subst h
    rfl
  · subst h
    rw [List.concat_eq_append, afterMoves_concat, onMouseMove_INTERSECTED]
    simp

theorem HoverInv_onMouseMove (hovered : Fin 4 → Prop) (m : List (Fin 4)) (s : State)
    (h : HoverInv hovered s) :
    HoverInv (fun i => hovered i ∨ m.head? = some i) (onMouseMove m s) := by
  obtain ⟨h1, h2⟩ := h
  cases m with
  | nil =>
    cases hI : s.INTERSECTED with
    | none =>
      refine ⟨fun i hi => ?_, fun i hi _ => ?_⟩
      · simp [onMouseMove, hI] at hi
      · have hov : hovered i := by simpa using hi
        have := h2 i hov (by simp [hI])
        simpa [onMouseMove, hI, scaleGoal, currentTween] using this
    | some p =>
      refine ⟨fun i hi => ?_, fun i hi _ => ?_⟩
      · simp [onMouseMove, hI] at hi
      · have hov : hovered i := by simpa using hi
        by_cases hip : p = i
        · subst hip
          simp [onMouseMove, hI, scaleGoal, currentTween, gsapTo]
        · have := h2 i hov (by simp [hI, hip])
          simpa [onMouseMove, hI, scaleGoal, currentTween, gsapTo, hip] using this
  | cons o rest =>
    by_cases hso : s.INTERSECTED = some o
    · rw [onMouseMove_same o rest s hso]
      refine ⟨fun i hi => ⟨Or.inl (h1 i hi).1, (h1 i hi).2⟩, fun i hi hne => ?_⟩
      rcases hi with hi | hi
      · exact h2 i hi hne
      · simp only [List.head?_cons, Option.some.injEq] at hi
        subst hi
        exact absurd hso hne
    · cases hI : s.INTERSECTED with
      | none =>
        refine ⟨fun i hi => ?_, fun i hi hne => ?_⟩
        · have hio : o = i := by
            rw [onMouseMove_INTERSECTED] at hi
            simpa using hi
          subst hio
          exact ⟨Or.inr rfl, by simp [onMouseMove, hI, scaleGoal, currentTween, gsapTo]⟩
        · have hoi : ¬ o = i := by
            rw [onMouseMove_INTERSECTED] at hne
            simpa using hne
          have hov : hovered i := by
            rcases hi with hi | hi
            · exact hi
            · simp only [List.head?_cons, Option.some.injEq] at hi
              exact absurd hi hoi
          have := h2 i hov (by simp [hI])
          simpa [onMouseMove, hI, scaleGoal, currentTween, gsapTo, hoi] using this
      | some p =>
        have hpo : ¬ p = o := by
          intro hpo
          apply hso
          rw [hI, hpo]
        refine ⟨fun i hi => ?_, fun i hi hne => ?_⟩
        · have hio : o = i := by
            rw [onMouseMove_INTERSECTED] at hi
            simpa using hi
          subst hio
          exact ⟨Or.inr rfl, by simp [onMouseMove, hI, scaleGoal, currentTween, gsapTo, hpo]⟩
        · have hoi : ¬ o = i := by
            rw [onMouseMove_INTERSECTED] at hne
            simpa using hne
          have hov : hovered i := by
            rcases hi with hi | hi
            · exact hi
            · simp only [List.head?_cons, Option.some.injEq] at hi
              exact absurd hi hoi
          by_cases hip : p = i
          · subst hip
            simp [onMouseMove, hI, scaleGoal, currentTween, gsapTo, hoi, hpo]
          · have := h2 i hov (by simp [hI, hip])
            simpa [onMouseMove, hI, scaleGoal, currentTween, gsapTo, hoi, hpo, hip] using this

theorem HoverInv_afterMoves (moves : List (List (Fin 4))) :
    ∀ (hovered : Fin 4 → Prop) (s : State), HoverInv hovered s →
      HoverInv (fun i => hovered i ∨ ∃ m ∈ moves, m.head? = some i) (afterMoves moves s) := by
  induction moves with
  | nil =>
    intro hovered s h
    simpa [afterMoves] using h
  | cons m ms ih =>
    intro hovered s h
    have hstep := ih _ _ (HoverInv_onMouseMove hovered m s h)
    have hfun : (fun i => (hovered i ∨ m.head? = some i) ∨ ∃ m' ∈ ms, m'.head? = some i)
        = (fun i => hovered i ∨ ∃ m' ∈ m :: ms, m'.head? = some i) := by
      funext i
      simp [or_assoc]
    rw [hfun] at hstep
    exact hstep

theorem HoverInv_initialState : HoverInv (fun _ => False) initialState := by
  refine ⟨fun i hi => ?_, fun i hi => hi.elim⟩
  simp [initialState, startFrameCycle, setInterval, declaredState] at hi

/-- C8: after any sequence of pointer moves from the initial state, at most one
placeholder is recorded as hovered; it is the nearest hit of the last move, or
null when the last move hit nothing; the newest scale goal of the hovered
placeholder is 1.1 on all axes and that of every other placeholder that was
hovered during the sequence is 1 on all axes; and a move whose nearest hit is the
already-hovered placeholder changes nothing, so it issues no request. -/
theorem hover_spec (moves : List (List (Fin 4))) :
    (∀ i j, (afterMoves moves initialState).INTERSECTED = some i →
        (afterMoves moves initialState).INTERSECTED = some j → i = j) ∧
      (afterMoves moves initialState).INTERSECTED = moves.getLast?.bind List.head? ∧
      (∀ i, (afterMoves moves initialState).INTERSECTED = some i →
        scaleGoal (afterMoves moves initialState) i = some ⟨1.1, 1.1, 1.1⟩) ∧
      (∀ i, (∃ m ∈ moves, m.head? = some i) →
        (afterMoves moves initialState).INTERSECTED ≠ some i →
        scaleGoal (afterMoves moves initialState) i = some ⟨1, 1, 1⟩) ∧
      (∀ i rest, (afterMoves moves initialState).INTERSECTED = some i →
        onMouseMove (i :: rest) (afterMoves moves initialState)
          = afterMoves moves initialState) := by
  have hinv := HoverInv_afterMoves moves _ _ HoverInv_initialState
  refine ⟨fun i j hi hj => ?_, ?_, fun i hi => (hinv.1 i hi).2, fun i hi hne => ?_,
    fun i rest hi => onMouseMove_same i rest _ hi⟩
  · rw [hi] at hj
    exact Option.some.inj hj
  · rw [afterMoves_INTERSECTED]
    cases moves.getLast? <;> rfl
  · exact hinv.2 i (Or.inr hi) hne

/-- Witness of `hover_spec`: hovering placeholder 2, then 0 (with 1 behind it),
leaves 0 hovered with scale goal 1.1 and 2 with scale goal 1. -/
theorem hover_spec_witness :
    (afterMoves [[2], [0, 1]] initialState).INTERSECTED = some 0 ∧
      scaleGoal (afterMoves [[2], [0, 1]] initialState) 2 = some ⟨1, 1, 1⟩ :=
  ⟨(hover_spec [[2], [0, 1]]).2.1,
    (hover_spec [[2], [0, 1]]).2.2.2.1 2 ⟨[2], by simp, rfl⟩
      (by rw [(hover_spec [[2], [0, 1]]).2.1]; decide)⟩

/-! ## Duplicate timers: claims C1, C2 and C6

`startFrameCycle` overwrites `intervalId` without looking at it, so a second
start leaves the first timer active with no handle left to cancel it. The
sequence "click a placeholder while the vending screen is still shown, then
Back" performs such a second start. -/

theorem startFrameCycle_timers (s : State) :
    (startFrameCycle s).timers = s.nextTimerId :: s.timers ∧
      (startFrameCycle s).intervalId = some s.nextTimerId :=
  ⟨rfl, rfl⟩

/-- C1 at the state the declarations leave (no timer yet): two calls of
`startFrameCycle` in a row leave two active timers, only the second recorded in
`intervalId`; one 1000ms period then advances the frame index twice, and
`stopFrameCycle` cancels only the second timer. -/
theorem startFrameCycle_twice_two_timers :
    (startFrameCycle declaredState).timers = [1] ∧
      (startFrameCycle (startFrameCycle declaredState)).timers = [2, 1] ∧
      (startFrameCycle (startFrameCycle declaredState)).intervalId = some 2 ∧
      (startFrameCycle (startFrameCycle declaredState)).frame = 0 ∧
      (elapsePeriod true (startFrameCycle (startFrameCycle declaredState))).frame = 2 ∧
      (stopFrameCycle (startFrameCycle (startFrameCycle declaredState))).timers = [1] :=
  ⟨rfl, rfl, rfl, rfl, rfl, rfl⟩

/-- C2 at the event sequence "click whose ray misses the vending screen and hits
placeholder 0, then Back": the click displays the Back button and leaves the
initial timer running, and Back starts a second one, so two timers are active
and `intervalId` records only the newer. -/
theorem project_click_then_back_two_timers :
    initialState.timers = [1] ∧
      (onClick ⟨0, [0]⟩ initialState).backButtonDisplay = Display.block ∧
      (onClick ⟨0, [0]⟩ initialState).timers = [1] ∧
      (unlockCameraControls (onClick ⟨0, [0]⟩ initialState)).timers = [2, 1] ∧
      (unlockCameraControls (onClick ⟨0, [0]⟩ initialState)).intervalId = some 2 :=
  ⟨rfl, rfl, rfl, rfl, rfl⟩

theorem onClick_floatingScreen (ray : ClickRay) (s : State)
    (h : 0 < ray.intersectsFloatingScreen) :
    onClick ray s = handleVendingMachineClick s := by
  simp [onClick, h]

theorem handleVendingMachineClick_effects (s : State) :
    (handleVendingMachineClick s).floatingScreen.visible = false ∧
      (handleVendingMachineClick s).intervalId = none ∧
      (∀ id, s.intervalId = some id → id ∉ (handleVendingMachineClick s).timers) ∧
      (∀ i, ((handleVendingMachineClick s).projects i).visible = true) ∧
      (handleVendingMachineClick s).learnMoreButtonDisplay = Display.block ∧
      (handleVendingMachineClick s).backButtonDisplay = Display.block ∧
      (handleVendingMachineClick s).tweens = s.tweens ∧
      (handleVendingMachineClick s).controls = s.controls := by
  cases hid : s.intervalId with
  | none => simp [handleVendingMachineClick, stopFrameCycle, hid]
  | some id => simp [handleVendingMachineClick, stopFrameCycle, clearInterval, hid]

/-- C6 at the state reached by "click placeholder 0, then Back": a click on the
vending screen hides the screen, shows the placeholders and both buttons and
sets `intervalId` to null, but the timer with handle 1 is still active. -/
theorem vending_click_leaves_leaked_timer :
    (onClick ⟨1, []⟩ (unlockCameraControls (onClick ⟨0, [0]⟩ initialState))).floatingScreen.visible
        = false ∧
      (onClick ⟨1, []⟩ (unlockCameraControls (onClick ⟨0, [0]⟩ initialState))).intervalId
        = none ∧
      (onClick ⟨1, []⟩ (unlockCameraControls (onClick ⟨0, [0]⟩ initialState))).backButtonDisplay
        = Display.block ∧
      (onClick ⟨1, []⟩ (unlockCameraControls (onClick ⟨0, [0]⟩ initialState))).timers = [1] :=
  ⟨rfl, rfl, rfl, rfl⟩

end Portfolio
